import Mathlib

/-!
Verification of the wait/retry core of a WebdriverIO test-automation framework.

The embedding models the polling/retry layer:
- WaitUtils.waitWithBackoff (src/src/utils/WaitUtils.ts, lines 198-218): a loop
  over attempts 1..maxAttempts that evaluates a condition, swallows exceptions
  raised by the condition, pauses baseDelay * 2 ^ (attempt - 1) ms between
  attempts, and throws a fixed message after the last attempt.
- BasePage.safeClick: a retry loop (i = 0 .. retries - 1) that re-resolves the
  element via waitForClickable (default timeout 10000 ms), clicks, logs info on
  success and warn on each failure, pauses 1000 ms between attempts, and
  rethrows the last error.
- BasePage.safeType: a single waitForVisible + clearValue + setValue with no
  retry loop.
- WaitUtils.waitForElementToDisappear: a try/catch that swallows every error.

External effects (the browser driver, the logger sink, the pauses) are modelled
as traces: a condition or an interaction attempt is a function from the
evaluation index to its outcome, and a run records the number of evaluations,
the list of pause durations, the log entries, and the final result.
-/

deriving instance DecidableEq for Except

namespace QAFW

/-- Outcome of one evaluation of a polling condition: the promise resolves to
true, resolves to false, or rejects with an error rendered as a string. -/
inductive CondResult where
  | tru : CondResult
  | fls : CondResult
  | thrown : String → CondResult
deriving DecidableEq, Repr

/-- Observable trace of one waitWithBackoff call: how many times the condition
was evaluated, the pause durations inserted between attempts (in order), the
debug log entries, and the outcome (ok, or the thrown error message). -/
structure BackoffRun where
  evals : Nat
  delays : List Nat
  debugLog : List String
  result : Except String Unit
deriving DecidableEq, Repr

/-- Message of the error thrown by waitWithBackoff when every attempt fails
(WaitUtils.ts line 217). -/
def backoffFailMsg (maxAttempts : Nat) : String :=
  "Condition not met after " ++ toString maxAttempts ++
    " attempts with exponential backoff"

/-- Debug log entries produced by the catch block of one attempt
(WaitUtils.ts lines 206-208): one entry when the condition threw, none
otherwise. -/
def condFailLog (c : Nat → CondResult) (attempt : Nat) : List String :=
  match c attempt with
  | CondResult.thrown e => ["Attempt " ++ toString attempt ++ " failed: " ++ e]
  | _ => []

/-- The loop of WaitUtils.waitWithBackoff (WaitUtils.ts lines 201-217), with
the current 1-based attempt index a and, as a structural argument, the number
rem of loop iterations still allowed, maintained as rem = maxAttempts + 1 - a:
rem = 0 encodes the loop guard a ≤ maxAttempts failing, and rem = 1 encodes
the test a < maxAttempts failing (a is the final attempt, so no pause is
inserted after it).  Each iteration evaluates the condition (an exception is
caught and logged at debug level, never rethrown); on true the function
returns; otherwise, before a further attempt, it pauses
baseDelay * 2 ^ (a - 1) ms; when the loop ends it throws the fixed failure
message. -/
def waitWithBackoffFrom (c : Nat → CondResult) (m b : Nat) :
    Nat → Nat → BackoffRun
  | _, 0 =>
    { evals := 0, delays := [], debugLog := [],
      result := Except.error (backoffFailMsg m) }
  | a, rem + 1 =>
    if c a = CondResult.tru then
      { evals := 1, delays := [], debugLog := [], result := Except.ok () }
    else
      match rem with
      | 0 =>
        { evals := 1, delays := [], debugLog := condFailLog c a,
          result := Except.error (backoffFailMsg m) }
      | rem2 + 1 =>
        { evals := 1 + (waitWithBackoffFrom c m b (a + 1) (rem2 + 1)).evals,
          delays := b * 2 ^ (a - 1)
            :: (waitWithBackoffFrom c m b (a + 1) (rem2 + 1)).delays,
          debugLog := condFailLog c a ++
            ("Waiting " ++ toString (b * 2 ^ (a - 1)) ++ "ms before next attempt")
              :: (waitWithBackoffFrom c m b (a + 1) (rem2 + 1)).debugLog,
          result := (waitWithBackoffFrom c m b (a + 1) (rem2 + 1)).result }

/-- WaitUtils.waitWithBackoff (WaitUtils.ts lines 198-218): emit the initial
debug entry and run the loop from attempt 1, which allows maxAttempts
iterations. -/
def waitWithBackoff (c : Nat → CondResult) (maxAttempts baseDelay : Nat) :
    BackoffRun :=
  let r := waitWithBackoffFrom c maxAttempts baseDelay 1 maxAttempts
  { r with
    debugLog :=
      ("Waiting with exponential backoff, max attempts: " ++ toString maxAttempts)
        :: r.debugLog }

/-- A condition whose every evaluation resolves to false. -/
def alwaysFalseCond : Nat → CondResult := fun _ => CondResult.fls

/-- A condition whose every evaluation rejects. -/
def alwaysThrowCond : Nat → CondResult := fun _ => CondResult.thrown "boom"

/-- A condition whose every evaluation resolves to true. -/
def alwaysTrueCond : Nat → CondResult := fun _ => CondResult.tru

/-- A condition that resolves to true exactly on its third evaluation. -/
def trueAtThirdCond : Nat → CondResult :=
  fun n => if n = 3 then CondResult.tru else CondResult.fls

/-- Replace a rejecting evaluation outcome by a false one; used to state that
waitWithBackoff treats a throwing condition exactly like one that returned
false. -/
def defang (r : CondResult) : CondResult :=
  match r with
  | CondResult.thrown _ => CondResult.fls
  | r => r

/-- Two successive, independent calls of waitWithBackoff on the same inputs;
the poller keeps no state between calls, so the pair is just the two runs. -/
def waitWithBackoffTwice (c : Nat → CondResult) (m b : Nat) :
    BackoffRun × BackoffRun :=
  (waitWithBackoff c m b, waitWithBackoff c m b)

/-- Observable trace of one BasePage.safeClick call: number of loop iterations
entered (each re-resolves the element and waits for clickability afresh), the
readiness timeout passed to waitForClickable on each iteration, the warn and
info log entries, the pause durations between attempts, and the outcome. -/
structure ClickRun where
  attemptsMade : Nat
  readyTimeouts : List Nat
  warnLog : List String
  infoLog : List String
  delays : List Nat
  result : Except String Unit
deriving DecidableEq, Repr

/-- Warn log entry of a failed safeClick attempt (part_001 line 98); the
attempt index in the message is 1-based. -/
def clickWarnMsg (attempt : Nat) (sel e : String) : String :=
  "Click attempt " ++ toString attempt ++ " failed for " ++ sel ++ ": " ++ e

/-- The loop of BasePage.safeClick (part_001 lines 91-102), with the current
0-based iteration index i and, as a structural argument, the number rem of
iterations still allowed, maintained as rem = retries - i (clamped at zero):
rem = 0 encodes the loop guard i < retries failing, and rem = 1 encodes the
test i = retries - 1 succeeding (the last attempt, whose error is rethrown).
Each entered iteration resolves the element afresh through waitForClickable
with its default 10000 ms timeout and clicks; on success it logs info and
returns; on failure it logs warn, and either rethrows (last attempt) or
pauses 1000 ms and continues. The attempt outcome function covers the whole
try body (resolution, clickability wait, click). -/
def safeClickFrom (outcome : Nat → Except String Unit) (sel : String) :
    Nat → Nat → ClickRun
  | _, 0 =>
    { attemptsMade := 0, readyTimeouts := [], warnLog := [], infoLog := [],
      delays := [], result := Except.ok () }
  | i, rem + 1 =>
    match outcome i with
    | Except.ok _ =>
      { attemptsMade := 1, readyTimeouts := [10000], warnLog := [],
        infoLog := ["Successfully clicked element: " ++ sel],
        delays := [], result := Except.ok () }
    | Except.error e =>
      match rem with
      | 0 =>
        { attemptsMade := 1, readyTimeouts := [10000],
          warnLog := [clickWarnMsg (i + 1) sel e], infoLog := [],
          delays := [], result := Except.error e }
      | rem2 + 1 =>
        { attemptsMade := 1 + (safeClickFrom outcome sel (i + 1) (rem2 + 1)).attemptsMade,
          readyTimeouts := 10000 :: (safeClickFrom outcome sel (i + 1) (rem2 + 1)).readyTimeouts,
          warnLog := clickWarnMsg (i + 1) sel e
            :: (safeClickFrom outcome sel (i + 1) (rem2 + 1)).warnLog,
          infoLog := (safeClickFrom outcome sel (i + 1) (rem2 + 1)).infoLog,
          delays := 1000 :: (safeClickFrom outcome sel (i + 1) (rem2 + 1)).delays,
          result := (safeClickFrom outcome sel (i + 1) (rem2 + 1)).result }

/-- BasePage.safeClick (part_001 lines 90-103): run the loop from i = 0,
which allows retries iterations; a retries value of zero or below never
enters the loop body (the function then returns normally). The retries
parameter is an integer, as in the source. -/
def safeClick (outcome : Nat → Except String Unit) (sel : String)
    (retries : Int) : ClickRun :=
  safeClickFrom outcome sel 0 retries.toNat

/-- Observable trace of one BasePage.safeType call: the visibility timeout
passed to waitForVisible, the info log entries, the number of attempts made,
and the outcome. -/
structure TypeRun where
  attemptsMade : Nat
  visTimeouts : List Nat
  infoLog : List String
  result : Except String Unit
deriving DecidableEq, Repr

/-- BasePage.safeType (part_001 lines 108-113): a single attempt with no
retry loop and no catch. It waits for visibility with the default 10000 ms
timeout, clears the value and types the text; any error from that one attempt
propagates to the caller, and only the first attempt outcome is ever
consulted. -/
def safeType (outcome : Nat → Except String Unit) (sel _text : String) :
    TypeRun :=
  match outcome 0 with
  | Except.ok _ =>
    { attemptsMade := 1, visTimeouts := [10000],
      infoLog := ["Successfully typed text into element: " ++ sel],
      result := Except.ok () }
  | Except.error e =>
    { attemptsMade := 1, visTimeouts := [10000], infoLog := [],
      result := Except.error e }

/-- Observable trace of one WaitUtils.waitForElementToDisappear call: the
debug log entries and the outcome returned to the caller. -/
structure DisappearRun where
  debugLog : List String
  result : Except String Unit
deriving DecidableEq, Repr

/-- WaitUtils.waitForElementToDisappear (WaitUtils.ts lines 43-52): resolution
of the selector and the reverse waitForDisplayed run inside a try whose catch
swallows every error and logs at debug level, so the call always returns
normally. The outcome argument is the result of the try body (an error covers
a resolution failure as well as a timeout with the element still visible). -/
def waitForElementToDisappear (sel : String) (outcome : Except String Unit) :
    DisappearRun :=
  match outcome with
  | Except.ok _ =>
    { debugLog := ["Waiting for element to disappear: " ++ sel],
      result := Except.ok () }
  | Except.error _ =>
    { debugLog := ["Waiting for element to disappear: " ++ sel,
        "Element " ++ sel ++ " not found or already disappeared"],
      result := Except.ok () }

/-- Error messages distinguishing the attempts of a failing interaction. -/
def failingErrs : Nat → String :=
  fun i =>
    match i with
    | 0 => "alpha"
    | 1 => "beta"
    | _ => "gamma"

/-- An interaction attempt trace that fails on every attempt, with a
distinguishable error per attempt. -/
def failingOutcomes : Nat → Except String Unit :=
  fun i => Except.error (failingErrs i)

/-- An interaction attempt trace that fails on the first two attempts and
succeeds on the third. -/
def thirdTimeLuckyOutcomes : Nat → Except String Unit :=
  fun i => if i < 2 then Except.error "not clickable" else Except.ok ()

/-- An interaction attempt trace that fails on the first attempt and succeeds
on every later one. -/
def secondTimeLuckyOutcomes : Nat → Except String Unit :=
  fun i => if i = 0 then Except.error "stale element" else Except.ok ()

/-- The always-false condition never resolves to true. -/
lemma alwaysFalseCond_ne_tru (k : Nat) :
    alwaysFalseCond k ≠ CondResult.tru := by
  simp [alwaysFalseCond]

/-- The always-rejecting condition never resolves to true. -/
lemma alwaysThrowCond_ne_tru (k : Nat) :
    alwaysThrowCond k ≠ CondResult.tru := by
  simp [alwaysThrowCond]

/-- For a condition that never resolves to true, the loop throws the fixed
failure message, evaluates the condition once per allowed iteration, and the
pauses are the backoff delays of every attempt except the final one. -/
lemma backoffFrom_notTrue (c : Nat → CondResult) (m b : Nat)
    (hf : ∀ k, c k ≠ CondResult.tru) :
    ∀ rem a,
      (waitWithBackoffFrom c m b a rem).result
        = Except.error (backoffFailMsg m) ∧
      (waitWithBackoffFrom c m b a rem).evals = rem ∧
      (waitWithBackoffFrom c m b a rem).delays
        = (List.range' a (rem - 1)).map (fun n => b * 2 ^ (n - 1)) := by
  intro rem
  induction rem with
  | zero =>
    intro a
    exact ⟨rfl, rfl, by simp [waitWithBackoffFrom]⟩
  | succ rem ih =>
    intro a
    cases rem with
    | zero =>
      refine ⟨?_, ?_, ?_⟩ <;> simp [waitWithBackoffFrom, hf a]
    | succ rem2 =>
      obtain ⟨hr, he, hd⟩ := ih (a + 1)
      refine ⟨?_, ?_, ?_⟩
      · simp [waitWithBackoffFrom, hf a, hr]
      · simp [waitWithBackoffFrom, hf a, he]
        omega
      · simp [waitWithBackoffFrom, hf a, hd, List.range'_succ]

/-- The result of the backoff loop is either success or the fixed failure
message; a condition exception never appears in the result. -/
lemma backoffFrom_result_ok_or_fail (c : Nat → CondResult) (m b : Nat) :
    ∀ rem a,
      (waitWithBackoffFrom c m b a rem).result = Except.ok () ∨
      (waitWithBackoffFrom c m b a rem).result
        = Except.error (backoffFailMsg m) := by
  intro rem
  induction rem with
  | zero => intro a; right; rfl
  | succ rem ih =>
    intro a
    cases rem with
    | zero =>
      by_cases hc : c a = CondResult.tru
      · left; simp [waitWithBackoffFrom, hc]
      · right; simp [waitWithBackoffFrom, hc]
    | succ rem2 =>
      by_cases hc : c a = CondResult.tru
      · left; simp [waitWithBackoffFrom, hc]
      · rcases ih (a + 1) with h | h
        · left; simp [waitWithBackoffFrom, hc, h]
        · right; simp [waitWithBackoffFrom, hc, h]

/-- Whether defang of a condition outcome is true is exactly whether the
outcome itself is true. -/
lemma defang_eq_tru (r : CondResult) :
    (defang r = CondResult.tru) = (r = CondResult.tru) := by
  cases r <;> simp [defang]

/-- Running the loop on a condition whose rejections have been replaced by
false evaluations leaves the evaluation count, the pauses and the result
unchanged: a throwing evaluation is handled exactly like a false one. -/
lemma backoffFrom_defang (c : Nat → CondResult) (m b : Nat) :
    ∀ rem a,
      (waitWithBackoffFrom (fun k => defang (c k)) m b a rem).evals
        = (waitWithBackoffFrom c m b a rem).evals ∧
      (waitWithBackoffFrom (fun k => defang (c k)) m b a rem).delays
        = (waitWithBackoffFrom c m b a rem).delays ∧
      (waitWithBackoffFrom (fun k => defang (c k)) m b a rem).result
        = (waitWithBackoffFrom c m b a rem).result := by
  intro rem
  induction rem with
  | zero => intro a; exact ⟨rfl, rfl, rfl⟩
  | succ rem ih =>
    intro a
    cases rem with
    | zero =>
      by_cases hc : c a = CondResult.tru
      · have hc2 : defang (c a) = CondResult.tru := by rw [defang_eq_tru]; exact hc
        refine ⟨?_, ?_, ?_⟩ <;>
          (simp only [waitWithBackoffFrom]; rw [if_pos hc2, if_pos hc])
      · have hc2 : ¬ defang (c a) = CondResult.tru := by rw [defang_eq_tru]; exact hc
        refine ⟨?_, ?_, ?_⟩ <;>
          (simp only [waitWithBackoffFrom]; rw [if_neg hc2, if_neg hc])
    | succ rem2 =>
      by_cases hc : c a = CondResult.tru
      · have hc2 : defang (c a) = CondResult.tru := by rw [defang_eq_tru]; exact hc
        refine ⟨?_, ?_, ?_⟩ <;>
          (simp only [waitWithBackoffFrom]; rw [if_pos hc2, if_pos hc])
      · have hc2 : ¬ defang (c a) = CondResult.tru := by rw [defang_eq_tru]; exact hc
        obtain ⟨he, hd, hr⟩ := ih (a + 1)
        refine ⟨?_, ?_, ?_⟩ <;>
          (simp only [waitWithBackoffFrom]; rw [if_neg hc2, if_neg hc]) <;>
          simp [he, hd, hr]

/-- If the condition first resolves to true at evaluation k, the loop started
at attempt a with enough allowed iterations succeeds after k - a + 1 further
evaluations. -/
lemma backoffFrom_first_true_at (c : Nat → CondResult) (m b k : Nat)
    (htrue : c k = CondResult.tru) :
    ∀ rem a, 1 ≤ a → a ≤ k → k ≤ a + rem - 1 →
      (∀ j, a ≤ j → j < k → c j ≠ CondResult.tru) →
      (waitWithBackoffFrom c m b a rem).result = Except.ok () ∧
      (waitWithBackoffFrom c m b a rem).evals = k - a + 1 := by
  intro rem
  induction rem with
  | zero =>
    intro a ha h1 h2 _
    exfalso
    omega
  | succ rem ih =>
    intro a ha h1 h2 hbef
    by_cases hak : a = k
    · subst hak
      cases rem with
      | zero => constructor <;> simp [waitWithBackoffFrom, htrue]
      | succ rem2 => constructor <;> simp [waitWithBackoffFrom, htrue]
    · have halt : a < k := by omega
      have hne : c a ≠ CondResult.tru := hbef a le_rfl halt
      cases rem with
      | zero => exfalso; omega
      | succ rem2 =>
        obtain ⟨hr, he⟩ := ih (a + 1) (by omega) (by omega) (by omega)
          (fun j hj1 hj2 => hbef j (by omega) hj2)
        constructor
        · simp [waitWithBackoffFrom, hne, hr]
        · simp [waitWithBackoffFrom, hne, he]
          omega

/-- C1: with baseDelay 1000 and maxAttempts 5 the pauses between successive
condition evaluations are exactly 1000, 2000, 4000, 8000 ms; in general, for
every attempt n with 1 <= n < maxAttempts, the pause inserted after failed
attempt n equals baseDelay * 2 ^ (n - 1), and no pause follows the final
attempt (the pause list has maxAttempts - 1 entries). -/
theorem C1_exponential_backoff_delays (c : Nat → CondResult) (m b : Nat)
    (hf : ∀ k, c k ≠ CondResult.tru) :
    (waitWithBackoff c m b).delays
      = (List.range' 1 (m - 1)).map (fun n => b * 2 ^ (n - 1)) ∧
    (∀ n, 1 ≤ n → n < m →
      (waitWithBackoff c m b).delays[n - 1]? = some (b * 2 ^ (n - 1))) ∧
    (waitWithBackoff c m b).delays.length = m - 1 ∧
    (waitWithBackoff c 5 1000).delays = [1000, 2000, 4000, 8000] := by
  have hmain : ∀ mm bb : Nat, (waitWithBackoff c mm bb).delays
      = (List.range' 1 (mm - 1)).map (fun n => bb * 2 ^ (n - 1)) := by
    intro mm bb
    have h := (backoffFrom_notTrue c mm bb hf mm 1).2.2
    simpa [waitWithBackoff] using h
  refine ⟨hmain m b, ?_, ?_, ?_⟩
  · intro n h1 h2
    rw [hmain m b, List.getElem?_map,
      List.getElem?_range' 1 1 (show n - 1 < m - 1 by omega)]
    have hn : 1 + 1 * (n - 1) = n := by omega
    simp [hn]
  · rw [hmain m b]
    simp
  · rw [hmain 5 1000]
    decide

/-- C1 witness: the general theorem applied to the always-false condition at
maxAttempts 5 and baseDelay 1000. -/
theorem C1_exponential_backoff_delays_witness :
    (∀ k, alwaysFalseCond k ≠ CondResult.tru) ∧
    (waitWithBackoff alwaysFalseCond 5 1000).delays
      = [1000, 2000, 4000, 8000] :=
  ⟨alwaysFalseCond_ne_tru,
   (C1_exponential_backoff_delays alwaysFalseCond 5 1000
      alwaysFalseCond_ne_tru).2.2.2⟩

/-- C4 counterexample: the error thrown by waitWithBackoff after exhausting
its attempts is the fixed message built only from the attempt budget. It is
byte-for-byte identical for two different conditions (one that always
resolves to false, one that always rejects), so it cannot include any
description of the condition, and it records no elapsed time. -/
theorem C4_counterexample_error_condition_independent :
    (waitWithBackoff alwaysFalseCond 5 1000).result
      = Except.error "Condition not met after 5 attempts with exponential backoff" ∧
    (waitWithBackoff alwaysThrowCond 5 1000).result
      = (waitWithBackoff alwaysFalseCond 5 1000).result := by
  decide

/-- C4 amended: for a condition that never resolves to true, waitWithBackoff
fails exactly when the attempt budget is exhausted — it evaluates the
condition maxAttempts times and then throws — and the thrown error includes
the attempt count, its message being the fixed string built from
maxAttempts (it names neither the condition nor the elapsed time). -/
theorem C4_attempt_budget_exhaustion (c : Nat → CondResult) (m b : Nat)
    (hf : ∀ k, c k ≠ CondResult.tru) :
    (waitWithBackoff c m b).result = Except.error (backoffFailMsg m) ∧
    (waitWithBackoff c m b).evals = m ∧
    backoffFailMsg m
      = "Condition not met after " ++ toString m
          ++ " attempts with exponential backoff" := by
  have h := backoffFrom_notTrue c m b hf m 1
  exact ⟨by simpa [waitWithBackoff] using h.1,
    by simpa [waitWithBackoff] using h.2.1, rfl⟩

/-- C4 witness: the amended theorem applied to the always-rejecting condition
at maxAttempts 5. -/
theorem C4_attempt_budget_exhaustion_witness :
    (∀ k, alwaysThrowCond k ≠ CondResult.tru) ∧
    (waitWithBackoff alwaysThrowCond 5 1000).result
      = Except.error (backoffFailMsg 5) ∧
    (waitWithBackoff alwaysThrowCond 5 1000).evals = 5 :=
  ⟨alwaysThrowCond_ne_tru,
   (C4_attempt_budget_exhaustion alwaysThrowCond 5 1000
      alwaysThrowCond_ne_tru).1,
   (C4_attempt_budget_exhaustion alwaysThrowCond 5 1000
      alwaysThrowCond_ne_tru).2.1⟩

/-- C5: an exception thrown by the condition during waitWithBackoff is
swallowed and treated as the condition not yet being satisfied. The result
is always either success or the fixed budget-exhausted error — a condition
exception is never propagated — and replacing every rejecting evaluation by
a false one changes neither the evaluation count (the attempt is counted),
nor the pauses (polling continues), nor the result. -/
theorem C5_condition_exceptions_swallowed (c : Nat → CondResult) (m b : Nat) :
    ((waitWithBackoff c m b).result = Except.ok () ∨
      (waitWithBackoff c m b).result = Except.error (backoffFailMsg m)) ∧
    (waitWithBackoff (fun k => defang (c k)) m b).evals
      = (waitWithBackoff c m b).evals ∧
    (waitWithBackoff (fun k => defang (c k)) m b).delays
      = (waitWithBackoff c m b).delays ∧
    (waitWithBackoff (fun k => defang (c k)) m b).result
      = (waitWithBackoff c m b).result := by
  obtain ⟨he, hd, hr⟩ := backoffFrom_defang c m b m 1
  have hres := backoffFrom_result_ok_or_fail c m b m 1
  refine ⟨?_, ?_, ?_, ?_⟩
  · simpa [waitWithBackoff] using hres
  · simpa [waitWithBackoff] using he
  · simpa [waitWithBackoff] using hd
  · simpa [waitWithBackoff] using hr

/-- C7: if the condition first resolves to true on its k-th evaluation with
k at most maxAttempts, waitWithBackoff returns success and evaluates the
condition exactly k times. -/
theorem C7_success_after_k_evaluations (c : Nat → CondResult) (m b k : Nat)
    (hk1 : 1 ≤ k) (hkm : k ≤ m) (htrue : c k = CondResult.tru)
    (hbefore : ∀ j, 1 ≤ j → j < k → c j ≠ CondResult.tru) :
    (waitWithBackoff c m b).result = Except.ok () ∧
    (waitWithBackoff c m b).evals = k := by
  obtain ⟨hr, he⟩ := backoffFrom_first_true_at c m b k htrue m 1 le_rfl hk1
    (by omega) hbefore
  refine ⟨by simpa [waitWithBackoff] using hr, ?_⟩
  have he2 : (waitWithBackoff c m b).evals = k - 1 + 1 := by
    simpa [waitWithBackoff] using he
  omega

/-- C7 witness: a condition first true on its third evaluation, with
maxAttempts 5, succeeds after exactly 3 evaluations. -/
theorem C7_success_after_k_evaluations_witness :
    (1 ≤ 3 ∧ (3 : Nat) ≤ 5 ∧ trueAtThirdCond 3 = CondResult.tru) ∧
    (waitWithBackoff trueAtThirdCond 5 1000).result = Except.ok () ∧
    (waitWithBackoff trueAtThirdCond 5 1000).evals = 3 := by
  refine ⟨by decide, ?_, ?_⟩
  · exact (C7_success_after_k_evaluations trueAtThirdCond 5 1000 3 (by decide)
      (by decide) (by decide)
      (fun j h1 h2 => by interval_cases j <;> decide)).1
  · exact (C7_success_after_k_evaluations trueAtThirdCond 5 1000 3 (by decide)
      (by decide) (by decide)
      (fun j h1 h2 => by interval_cases j <;> decide)).2

/-- C8: the poller is idempotent and stateless across invocations. Two
successive calls with an already-true condition both return success
immediately: one evaluation, zero suspension, and the second run is
identical to the first — every invocation starts with a fresh attempt
counter, since a run is a function of its arguments alone. -/
theorem C8_poll_idempotent_stateless (c : Nat → CondResult) (m b : Nat)
    (htrue : ∀ k, c k = CondResult.tru) (hm : 1 ≤ m) :
    (waitWithBackoffTwice c m b).1.result = Except.ok () ∧
    (waitWithBackoffTwice c m b).1.evals = 1 ∧
    (waitWithBackoffTwice c m b).1.delays = [] ∧
    (waitWithBackoffTwice c m b).2.result = Except.ok () ∧
    (waitWithBackoffTwice c m b).2.evals = 1 ∧
    (waitWithBackoffTwice c m b).2.delays = [] ∧
    (waitWithBackoffTwice c m b).2 = (waitWithBackoffTwice c m b).1 := by
  obtain ⟨m2, rfl⟩ : ∃ m2, m = m2 + 1 := ⟨m - 1, by omega⟩
  refine ⟨?_, ?_, ?_, ?_, ?_, ?_, rfl⟩ <;> cases m2 <;>
    simp [waitWithBackoffTwice, waitWithBackoff, waitWithBackoffFrom, htrue 1]

/-- C8 witness: the theorem applied to the always-true condition at
maxAttempts 5 and baseDelay 1000. -/
theorem C8_poll_idempotent_stateless_witness :
    ((∀ k, alwaysTrueCond k = CondResult.tru) ∧ (1 : Nat) ≤ 5) ∧
    (waitWithBackoffTwice alwaysTrueCond 5 1000).1.result = Except.ok () ∧
    (waitWithBackoffTwice alwaysTrueCond 5 1000).1.delays = [] ∧
    (waitWithBackoffTwice alwaysTrueCond 5 1000).2
      = (waitWithBackoffTwice alwaysTrueCond 5 1000).1 :=
  ⟨⟨fun _ => rfl, by decide⟩,
   (C8_poll_idempotent_stateless alwaysTrueCond 5 1000 (fun _ => rfl)
      (by decide)).1,
   (C8_poll_idempotent_stateless alwaysTrueCond 5 1000 (fun _ => rfl)
      (by decide)).2.2.1,
   (C8_poll_idempotent_stateless alwaysTrueCond 5 1000 (fun _ => rfl)
      (by decide)).2.2.2.2.2.2⟩

/-- For attempt outcomes that fail on every consulted index, the safeClick
loop makes one attempt per allowed iteration — each with the default 10000 ms
clickability timeout — logs one warn entry per attempt with its 1-based
index, logs no info entry, pauses 1000 ms between consecutive attempts, and
rethrows the error of the last attempt. -/
lemma safeClickFrom_allFail (outcome : Nat → Except String Unit)
    (sel : String) (e : Nat → String) :
    ∀ rem i, (∀ j, i ≤ j → j ≤ i + rem → outcome j = Except.error (e j)) →
      safeClickFrom outcome sel i (rem + 1) =
        { attemptsMade := rem + 1,
          readyTimeouts := List.replicate (rem + 1) 10000,
          warnLog := (List.range' i (rem + 1)).map
            (fun j => clickWarnMsg (j + 1) sel (e j)),
          infoLog := [],
          delays := List.replicate rem 1000,
          result := Except.error (e (i + rem)) } := by
  intro rem
  induction rem with
  | zero =>
    intro i h
    have ho : outcome i = Except.error (e i) := h i le_rfl (by omega)
    simp only [safeClickFrom]
    rw [ho]
    simp [List.range'_one]
  | succ rem ih =>
    intro i h
    have ho : outcome i = Except.error (e i) := h i le_rfl (by omega)
    have hrec := ih (i + 1) (fun j hj1 hj2 => h j (by omega) (by omega))
    have hidx : i + 1 + rem = i + (rem + 1) := by omega
    rw [safeClickFrom.eq_2, ho]
    dsimp only
    rw [hrec, hidx]
    simp [List.replicate_succ, List.range'_succ]
    omega

/-- C2 counterexample: with retries 3 and a distinct error per attempt, the
error raised by safeClick is the third attempt's error verbatim — the string
gamma — which is not an InteractionFailed wrapper and contains no digit 3,
hence no attempt count. -/
theorem C2_counterexample_raises_raw_last_error :
    (safeClick failingOutcomes "loginButton" 3).result = Except.error "gamma" ∧
    "gamma".data.contains (Char.ofNat 51) = false := by
  decide

/-- C2 amended: safeClick with retries 3 and an action failing on every
attempt raises the error of the last (third) attempt only, verbatim, with no
wrapper carrying the attempt count; the three intermediate per-attempt errors
are logged at warn level (each warn entry carries its 1-based attempt index)
and are not raised before the retry budget is exhausted, and no info entry is
logged. -/
theorem C2_safe_click_exhausted_raises_last_error
    (outcome : Nat → Except String Unit) (sel e0 e1 e2 : String)
    (h0 : outcome 0 = Except.error e0) (h1 : outcome 1 = Except.error e1)
    (h2 : outcome 2 = Except.error e2) :
    (safeClick outcome sel 3).result = Except.error e2 ∧
    (safeClick outcome sel 3).warnLog
      = [clickWarnMsg 1 sel e0, clickWarnMsg 2 sel e1, clickWarnMsg 3 sel e2] ∧
    (safeClick outcome sel 3).infoLog = [] ∧
    (safeClick outcome sel 3).attemptsMade = 3 ∧
    (safeClick outcome sel 3).delays = [1000, 1000] := by
  refine ⟨?_, ?_, ?_, ?_, ?_⟩ <;>
    simp [safeClick, safeClickFrom, h0, h1, h2, Int.toNat_ofNat]

/-- C2 witness: the amended theorem applied to the all-failing attempt trace
with errors alpha, beta, gamma. -/
theorem C2_safe_click_exhausted_raises_last_error_witness :
    (failingOutcomes 0 = Except.error "alpha" ∧
      failingOutcomes 1 = Except.error "beta" ∧
      failingOutcomes 2 = Except.error "gamma") ∧
    (safeClick failingOutcomes "loginButton" 3).result = Except.error "gamma" ∧
    (safeClick failingOutcomes "loginButton" 3).attemptsMade = 3 :=
  ⟨⟨rfl, rfl, rfl⟩,
   (C2_safe_click_exhausted_raises_last_error failingOutcomes "loginButton"
      "alpha" "beta" "gamma" rfl rfl rfl).1,
   (C2_safe_click_exhausted_raises_last_error failingOutcomes "loginButton"
      "alpha" "beta" "gamma" rfl rfl rfl).2.2.2.1⟩

/-- C3: safeClick with retries 3, failing on attempts 1 and 2 and succeeding
on attempt 3, returns success, logs exactly 2 warn entries (one per failed
attempt) and exactly 1 success info entry. -/
theorem C3_safe_click_succeeds_third_attempt
    (outcome : Nat → Except String Unit) (sel e0 e1 : String)
    (h0 : outcome 0 = Except.error e0) (h1 : outcome 1 = Except.error e1)
    (h2 : outcome 2 = Except.ok ()) :
    (safeClick outcome sel 3).result = Except.ok () ∧
    (safeClick outcome sel 3).warnLog
      = [clickWarnMsg 1 sel e0, clickWarnMsg 2 sel e1] ∧
    (safeClick outcome sel 3).warnLog.length = 2 ∧
    (safeClick outcome sel 3).infoLog
      = ["Successfully clicked element: " ++ sel] ∧
    (safeClick outcome sel 3).infoLog.length = 1 := by
  refine ⟨?_, ?_, ?_, ?_, ?_⟩ <;>
    simp [safeClick, safeClickFrom, h0, h1, h2, Int.toNat_ofNat]

/-- C3 witness: the theorem applied to the attempt trace that fails twice and
succeeds on the third attempt. -/
theorem C3_safe_click_succeeds_third_attempt_witness :
    (thirdTimeLuckyOutcomes 0 = Except.error "not clickable" ∧
      thirdTimeLuckyOutcomes 1 = Except.error "not clickable" ∧
      thirdTimeLuckyOutcomes 2 = Except.ok ()) ∧
    (safeClick thirdTimeLuckyOutcomes "loginButton" 3).result = Except.ok () ∧
    (safeClick thirdTimeLuckyOutcomes "loginButton" 3).warnLog.length = 2 ∧
    (safeClick thirdTimeLuckyOutcomes "loginButton" 3).infoLog.length = 1 :=
  ⟨⟨rfl, rfl, rfl⟩,
   (C3_safe_click_succeeds_third_attempt thirdTimeLuckyOutcomes "loginButton"
      "not clickable" "not clickable" rfl rfl rfl).1,
   (C3_safe_click_succeeds_third_attempt thirdTimeLuckyOutcomes "loginButton"
      "not clickable" "not clickable" rfl rfl rfl).2.2.1,
   (C3_safe_click_succeeds_third_attempt thirdTimeLuckyOutcomes "loginButton"
      "not clickable" "not clickable" rfl rfl rfl).2.2.2.2⟩

/-- C6 counterexample: safeType is not a retry decorator. On an attempt trace
whose first attempt fails and whose second attempt would succeed, safeType
makes exactly one attempt and propagates the first error instead of retrying
and returning success. -/
theorem C6_counterexample_safe_type_does_not_retry :
    safeType secondTimeLuckyOutcomes "userName" "standard_user"
      = { attemptsMade := 1, visTimeouts := [10000], infoLog := [],
          result := Except.error "stale element" } ∧
    secondTimeLuckyOutcomes 1 = Except.ok () := by
  decide

/-- C6 amended: safeClick is a retry decorator — on every attempt it
re-resolves the target fresh, waits for clickability with the default
10000 ms readiness timeout, and on failure retries with a fixed 1000 ms
delay up to the retries budget, surfacing the last attempt's error when all
attempts fail — while safeType performs exactly one attempt: it waits for
visibility with the default 10000 ms timeout and propagates that single
attempt's error without any retry, even when a second attempt would have
succeeded. -/
theorem C6_safe_click_retries_safe_type_does_not
    (outcome outco2 : Nat → Except String Unit) (e : Nat → String)
    (sel text err0 : String) (r : Nat)
    (hfail : ∀ j, j ≤ r → outcome j = Except.error (e j))
    (hfirst : outco2 0 = Except.error err0) :
    safeClick outcome sel ((r : Int) + 1)
      = { attemptsMade := r + 1,
          readyTimeouts := List.replicate (r + 1) 10000,
          warnLog := (List.range' 0 (r + 1)).map
            (fun j => clickWarnMsg (j + 1) sel (e j)),
          infoLog := [],
          delays := List.replicate r 1000,
          result := Except.error (e r) } ∧
    (safeType outco2 sel text).attemptsMade = 1 ∧
    (safeType outco2 sel text).visTimeouts = [10000] ∧
    (safeType outco2 sel text).infoLog = [] ∧
    (safeType outco2 sel text).result = Except.error err0 := by
  have htn : ((r : Int) + 1).toNat = r + 1 := by omega
  have hclick := safeClickFrom_allFail outcome sel e r 0
    (fun j hj1 hj2 => hfail j (by omega))
  refine ⟨?_, ?_, ?_, ?_, ?_⟩
  · rw [safeClick, htn, hclick]
    simp
  · simp [safeType, hfirst]
  · simp [safeType, hfirst]
  · simp [safeType, hfirst]
  · simp [safeType, hfirst]

/-- C6 witness: the amended theorem applied to the all-failing click trace
(errors alpha, beta, gamma; retries 3) and the type trace failing once. -/
theorem C6_safe_click_retries_safe_type_does_not_witness :
    ((∀ j, j ≤ 2 → failingOutcomes j = Except.error (failingErrs j)) ∧
      secondTimeLuckyOutcomes 0 = Except.error "stale element") ∧
    (safeClick failingOutcomes "loginButton" 3).result
      = Except.error (failingErrs 2) ∧
    (safeType secondTimeLuckyOutcomes "userName" "standard_user").result
      = Except.error "stale element" ∧
    (safeType secondTimeLuckyOutcomes "userName" "standard_user").attemptsMade
      = 1 :=
  ⟨⟨fun _ _ => rfl, rfl⟩,
   by
    have h := (C6_safe_click_retries_safe_type_does_not failingOutcomes
      secondTimeLuckyOutcomes failingErrs "loginButton" "standard_user"
      "stale element" 2 (fun j _ => rfl) rfl).1
    have h3 : ((2 : Nat) : Int) + 1 = 3 := by decide
    rw [h3] at h
    rw [h],
   (C6_safe_click_retries_safe_type_does_not failingOutcomes
      secondTimeLuckyOutcomes failingErrs "loginButton" "standard_user"
      "stale element" 2 (fun j _ => rfl) rfl).2.2.2.2,
   (C6_safe_click_retries_safe_type_does_not failingOutcomes
      secondTimeLuckyOutcomes failingErrs "loginButton" "standard_user"
      "stale element" 2 (fun j _ => rfl) rfl).2.1⟩

/-- C9: safeClick with retries at most 0 never enters the loop body: it
returns normally with no attempt made, no readiness wait, no warn or info
log entry, no pause, and no error. -/
theorem C9_safe_click_nonpositive_retries (outcome : Nat → Except String Unit)
    (sel : String) (retries : Int) (hr : retries ≤ 0) :
    safeClick outcome sel retries
      = { attemptsMade := 0, readyTimeouts := [], warnLog := [], infoLog := [],
          delays := [], result := Except.ok () } := by
  have h0 : retries.toNat = 0 := by omega
  rw [safeClick, h0]
  rfl

/-- C9 witness: the theorem applied at retries minus one. -/
theorem C9_safe_click_nonpositive_retries_witness :
    ((-1 : Int) ≤ 0) ∧
    safeClick failingOutcomes "loginButton" (-1)
      = { attemptsMade := 0, readyTimeouts := [], warnLog := [], infoLog := [],
          delays := [], result := Except.ok () } :=
  ⟨by decide,
   C9_safe_click_nonpositive_retries failingOutcomes "loginButton" (-1)
     (by decide)⟩

/-- C10: waitForElementToDisappear never throws. For every selector and every
outcome of the try body — including an error while resolving the element and
a timeout with the element still visible — the call returns success to the
caller, and on an error the failure is recorded as a debug log entry only. -/
theorem C10_wait_disappear_never_throws (sel : String)
    (outcome : Except String Unit) :
    (waitForElementToDisappear sel outcome).result = Except.ok () ∧
    (∀ e, outcome = Except.error e →
      (waitForElementToDisappear sel outcome).debugLog
        = ["Waiting for element to disappear: " ++ sel,
           "Element " ++ sel ++ " not found or already disappeared"]) := by
  constructor
  · cases outcome <;> simp [waitForElementToDisappear]
  · intro e he
    subst he
    simp [waitForElementToDisappear]

/-- C10 witness: the theorem applied to a spinner selector whose reverse
visibility wait times out. -/
theorem C10_wait_disappear_never_throws_witness :
    (Except.error "element still displayed after 10000ms"
        = (Except.error "element still displayed after 10000ms"
            : Except String Unit)) ∧
    (waitForElementToDisappear ".spinner"
        (Except.error "element still displayed after 10000ms")).result
      = Except.ok () :=
  ⟨rfl,
   (C10_wait_disappear_never_throws ".spinner"
      (Except.error "element still displayed after 10000ms")).1⟩

end QAFW
